import Mathlib

/-!
Shallow embedding of the core simulation of the flappy-bird game
(`flappybird.py`, `game.py`, `converter.py`).

Conventions of the embedding:
* Python floats are modelled as rationals (`ℚ`); every float value that the
  verified claims touch is produced by exact arithmetic in the source
  (additions, subtractions, multiplications and divisions of decimal
  constants), so `ℚ` is faithful for them.
* Python ints are modelled as `ℤ` (piece counts, pixel heights) or as `ℕ`
  where the source only ever increments from 0 (`frame_clock`, `score`).
* `math.cos(t * math.pi)` in `Bird.update` is transcendental; the embedding
  takes the map `t ↦ cos (t * π)` as an explicit function parameter
  `cosPi : ℚ → ℚ`.  No verified claim depends on its values.
* `pygame.sprite.collide_mask` (pixel-mask collision) depends on image
  pixels; the embedding takes the collision test as an explicit function
  parameter `collides : PipePair → Bird → Bool`.
* `random.randint(1, total_pipe_body_pieces)` is modelled by passing the
  drawn value `bottom_draw` as a parameter to the `PipePair` constructor.
* pygame surfaces, fonts, event translation and blitting are rendering
  plumbing with no effect on the verified state, except for the final
  `self.frame_clock += 1` of `Game.render_world`, which is kept.
-/

/-- Constant `FPS = 60` (flappybird.py line 14). -/
def FPS : ℚ := 60

/-- Constant `TILE = 284` (flappybird.py line 15). -/
def TILE : ℤ := 284

/-- Constant `ANIMATION_SPEED = 0.18` pixels per millisecond
(flappybird.py line 16). -/
def ANIMATION_SPEED : ℚ := 18 / 100

/-- Constant `WIN_WIDTH = TILE * 2 = 568` (flappybird.py line 17). -/
def WIN_WIDTH : ℤ := TILE * 2

/-- Constant `WIN_HEIGHT = 512` (flappybird.py line 18). -/
def WIN_HEIGHT : ℤ := 512

/-- Python `int(q)` applied to a float `q`: truncation toward zero. -/
def int_trunc (q : ℚ) : ℤ := if q < 0 then ⌈q⌉ else ⌊q⌋

/-- Function `frames_to_msec(frames, fps) = 1000.0 * frames / fps`
(converter.py lines 4-11, flappybird.py lines 255-262). -/
def frames_to_msec (frames : ℚ) (fps : ℚ) : ℚ := 1000 * frames / fps

/-- Function `msec_to_frames(milliseconds, fps) = fps * milliseconds / 1000.0`
(converter.py lines 14-21, flappybird.py lines 265-272). -/
def msec_to_frames (milliseconds : ℚ) (fps : ℚ) : ℚ := fps * milliseconds / 1000

/-- Mutable state of `Bird` (flappybird.py lines 23-131): position and
remaining climb time.  The images and masks held by the Python object are
rendering data and are not part of the simulation state. -/
structure Bird where
  x : ℚ
  y : ℚ
  msec_to_climb : ℚ
deriving DecidableEq

namespace Bird

/-- Constant `Bird.WIDTH = 32` (flappybird.py line 49). -/
def WIDTH : ℤ := 32

/-- Constant `Bird.HEIGHT = 32` (flappybird.py line 49). -/
def HEIGHT : ℤ := 32

/-- Constant `Bird.SINK_SPEED = 0.18` (flappybird.py line 50). -/
def SINK_SPEED : ℚ := 18 / 100

/-- Constant `Bird.CLIMB_SPEED = 0.3` (flappybird.py line 51). -/
def CLIMB_SPEED : ℚ := 3 / 10

/-- Constant `Bird.CLIMB_DURATION = 333.3` (flappybird.py line 52). -/
def CLIMB_DURATION : ℚ := 3333 / 10

/-- Method `Bird.update(delta_frames)` (flappybird.py lines 76-100).
`cosPi t` stands for Python `math.cos(t * math.pi)`. -/
def update (cosPi : ℚ → ℚ) (b : Bird) (delta_frames : ℚ) : Bird :=
  if b.msec_to_climb > 0 then
    let frac_climb_done := 1 - b.msec_to_climb / CLIMB_DURATION
    { b with
      y := b.y - CLIMB_SPEED * frames_to_msec delta_frames FPS * (1 - cosPi frac_climb_done)
      msec_to_climb := b.msec_to_climb - frames_to_msec delta_frames FPS }
  else
    { b with y := b.y + SINK_SPEED * frames_to_msec delta_frames FPS }

end Bird

/-- Mutable state of `PipePair` (flappybird.py lines 134-252).  The
pre-rendered `image` and `mask` are rendering/collision data derived from the
same piece counts and are not part of the simulation state. -/
structure PipePair where
  x : ℚ
  score_counted : Bool
  top_pieces : ℤ
  bottom_pieces : ℤ
deriving DecidableEq

namespace PipePair

/-- Constant `PipePair.WIDTH = 80` (flappybird.py line 163). -/
def WIDTH : ℤ := 80

/-- Constant `PipePair.PIECE_HEIGHT = 32` (flappybird.py line 164). -/
def PIECE_HEIGHT : ℤ := 32

/-- Constant `PipePair.ADD_INTERVAL = 3000` milliseconds
(flappybird.py line 165). -/
def ADD_INTERVAL : ℚ := 3000

end PipePair

/-- Value `total_pipe_body_pieces` as computed inside `PipePair.__init__`
(flappybird.py lines 184-191):
`int((WIN_HEIGHT - 3*Bird.HEIGHT - 3*PipePair.PIECE_HEIGHT) / PipePair.PIECE_HEIGHT)`.
The same value is computed for every `PipePair`. -/
def total_pipe_body_pieces : ℤ :=
  int_trunc (((WIN_HEIGHT : ℚ) - 3 * (Bird.HEIGHT : ℚ) - 3 * (PipePair.PIECE_HEIGHT : ℚ))
    / (PipePair.PIECE_HEIGHT : ℚ))

namespace PipePair

/-- Constructor `PipePair.__init__` (flappybird.py lines 167-214), with the
value drawn by `randint(1, total_pipe_body_pieces)` passed in as
`bottom_draw`.  It sets `x = float(WIN_WIDTH - 1)`, `score_counted = False`,
`bottom_pieces = bottom_draw`,
`top_pieces = total_pipe_body_pieces - bottom_pieces`, and then increments
both counts by 1 ("compensate for added end pieces", lines 209-211).  The
blitting of body and end pieces onto `self.image` only produces rendering
data and is omitted. -/
def init (bottom_draw : ℤ) : PipePair :=
  let bottom_pieces := bottom_draw
  let top_pieces := total_pipe_body_pieces - bottom_pieces
  { x := (WIN_WIDTH : ℚ) - 1
    score_counted := false
    top_pieces := top_pieces + 1
    bottom_pieces := bottom_pieces + 1 }

/-- Property `PipePair.top_height_px = top_pieces * PIECE_HEIGHT`
(flappybird.py lines 216-219). -/
def top_height_px (p : PipePair) : ℤ := p.top_pieces * PIECE_HEIGHT

/-- Property `PipePair.bottom_height_px = bottom_pieces * PIECE_HEIGHT`
(flappybird.py lines 221-224). -/
def bottom_height_px (p : PipePair) : ℤ := p.bottom_pieces * PIECE_HEIGHT

/-- Property `PipePair.visible`, i.e.
`-PipePair.WIDTH < self.x < WIN_WIDTH` (flappybird.py lines 226-229). -/
def visible (p : PipePair) : Bool :=
  decide (-(WIDTH : ℚ) < p.x) && decide (p.x < (WIN_WIDTH : ℚ))

/-- Method `PipePair.update(delta_frames)` (flappybird.py lines 236-243):
`x -= ANIMATION_SPEED * frames_to_msec(delta_frames)`. -/
def update (p : PipePair) (delta_frames : ℚ) : PipePair :=
  { p with x := p.x - ANIMATION_SPEED * frames_to_msec delta_frames FPS }

end PipePair

/-- Semantic input events consumed by `Game.handle_events`
(flappybird.py lines 322-332): `quit` is `QUIT` or a `K_ESCAPE` keyup,
`togglePause` is a `K_PAUSE`/`K_p` keyup, `climb` is a mouse-button-up or a
`K_UP`/`K_RETURN`/`K_SPACE` keyup.  Any other pygame event falls through
every branch and is ignored, so it is not represented. -/
inductive GEvent where
  | quit
  | togglePause
  | climb
deriving DecidableEq

/-- Mutable state of `Game` (flappybird.py lines 276-302).  The display
surface, clock, font and image dictionary are rendering plumbing. -/
structure Game where
  bird : Bird
  pipes : List PipePair
  frame_clock : ℕ
  score : ℕ
  done : Bool
  paused : Bool
deriving DecidableEq

namespace Game

/-- State built by `Game.__init__` (flappybird.py lines 288-302):
`Bird(50, int(WIN_HEIGHT / 2 - Bird.HEIGHT / 2), 2, ...)`, empty pipe deque,
`frame_clock = 0`, `score = 0`, `done = False`, `paused = False`. -/
def initState : Game :=
  { bird :=
      { x := 50
        y := (int_trunc ((WIN_HEIGHT : ℚ) / 2 - (Bird.HEIGHT : ℚ) / 2) : ℚ)
        msec_to_climb := 2 }
    pipes := []
    frame_clock := 0
    score := 0
    done := false
    paused := false }

/-- Method `Game.handle_events` (flappybird.py lines 322-332), on the
pre-classified event list of one tick.  A `quit` event sets `done = True` and
`break`s out of the loop, discarding the remaining events; `togglePause`
flips `paused`; `climb` sets `self.bird.msec_to_climb = Bird.CLIMB_DURATION`. -/
def handle_events (g : Game) : List GEvent → Game
  | [] => g
  | GEvent.quit :: _ => { g with done := true }
  | GEvent.togglePause :: es => handle_events { g with paused := !g.paused } es
  | GEvent.climb :: es =>
      handle_events { g with bird := { g.bird with msec_to_climb := Bird.CLIMB_DURATION } } es

end Game

/-- Culling loop of `Game.update_world` (flappybird.py lines 350-351):
`while self.pipes and not self.pipes[0].visible: self.pipes.popleft()`. -/
def cull_invisible : List PipePair → List PipePair
  | [] => []
  | p :: rest => if p.visible then p :: rest else cull_invisible rest

/-- Scoring loop of `Game.update_world` (flappybird.py lines 358-361): for
each pipe with `p.x + PipePair.WIDTH < self.bird.x and not p.score_counted`,
add 1 to the score and set `score_counted = True`.  Returns the total score
increment together with the updated pipe list. -/
def score_pass (bird_x : ℚ) : List PipePair → ℕ × List PipePair
  | [] => (0, [])
  | p :: rest =>
      let r := score_pass bird_x rest
      if decide (p.x + (PipePair.WIDTH : ℚ) < bird_x) && !p.score_counted then
        (r.1 + 1, { p with score_counted := true } :: r.2)
      else
        (r.1, p :: r.2)

/-- Value of `msec_to_frames(PipePair.ADD_INTERVAL)` at the configured
constants: the spawn interval in frames, `60 * 3000 / 1000 = 180`.
`Game.update_world` computes
`self.frame_clock % msec_to_frames(PipePair.ADD_INTERVAL)`, a Python int
modulo the float `180.0`, which is zero exactly when
`frame_clock % 180 == 0` (the lemma `add_interval_frames_eq` below ties this
constant to `msec_to_frames`). -/
def add_interval_frames : ℕ := 180

namespace Game

/-- Method `Game.update_world` (flappybird.py lines 334-361).
1. If not paused and `frame_clock % msec_to_frames(ADD_INTERVAL) == 0`,
   append a fresh `PipePair` (its random draw passed as `bottom_draw`).
2. If not paused: compute `pipe_collision = any(p.collides_with(bird))`;
   if `pipe_collision or 0 >= bird.y or bird.y >= WIN_HEIGHT - Bird.HEIGHT`
   set `done = True`; then cull invisible head pipes, `p.update()` every
   pipe, `bird.update()`, and run the scoring loop.  Note that after setting
   `done` the method keeps running: nothing returns early. -/
def update_world (cosPi : ℚ → ℚ) (collides : PipePair → Bird → Bool)
    (bottom_draw : ℤ) (g : Game) : Game :=
  let g1 :=
    if !g.paused && g.frame_clock % add_interval_frames == 0 then
      { g with pipes := g.pipes ++ [PipePair.init bottom_draw] }
    else g
  if !g1.paused then
    let pipe_collision := g1.pipes.any fun p => collides p g1.bird
    let done1 :=
      if pipe_collision
          || decide ((0 : ℚ) ≥ g1.bird.y)
          || decide (g1.bird.y ≥ (WIN_HEIGHT : ℚ) - (Bird.HEIGHT : ℚ)) then
        true
      else g1.done
    let pipes1 := cull_invisible g1.pipes
    let pipes2 := pipes1.map fun p => p.update 1
    let bird1 := g1.bird.update cosPi 1
    let sp := score_pass bird1.x pipes2
    { g1 with bird := bird1, pipes := sp.2, score := g1.score + sp.1, done := done1 }
  else g1

/-- Method `Game.render_world` (flappybird.py lines 363-377).  All the
blitting and `pygame.display.flip()` are rendering plumbing; the one state
mutation is the final, unconditional `self.frame_clock += 1`. -/
def render_world (g : Game) : Game := { g with frame_clock := g.frame_clock + 1 }

/-- One iteration of the main loop (flappybird.py lines 384-388):
`handle_events`, `update_world`, `render_world`. -/
def tick (cosPi : ℚ → ℚ) (collides : PipePair → Bird → Bool)
    (bottom_draw : ℤ) (events : List GEvent) (g : Game) : Game :=
  render_world (update_world cosPi collides bottom_draw (handle_events g events))

end Game

/-- Concrete non-paused state in which the boundary collision condition
`0 >= bird.y` holds: the bird sits at `y = 0` with no climb time left, one
visible unscored pipe is at `x = -50`, and `frame_clock = 1` so no pipe
spawns this tick. -/
def hit_state : Game :=
  { bird := { x := 50, y := 0, msec_to_climb := 0 }
    pipes := [{ x := -50, score_counted := false, top_pieces := 10, bottom_pieces := 2 }]
    frame_clock := 1
    score := 0
    done := false
    paused := false }

/-- Concrete non-paused state with `done = true`: the bird flies at
`y = 100` (no collision), one visible unscored pipe is at `x = -50`, and
`frame_clock = 1` so no pipe spawns this tick. -/
def done_probe_state : Game :=
  { bird := { x := 50, y := 100, msec_to_climb := 0 }
    pipes := [{ x := -50, score_counted := false, top_pieces := 10, bottom_pieces := 2 }]
    frame_clock := 1
    score := 0
    done := true
    paused := false }

/-- Concrete pipe list ordered head-first by ascending `x`, with every `x`
below the field width: one off-screen pipe followed by two on-screen ones. -/
def sample_pipe_list : List PipePair :=
  [{ x := -100, score_counted := false, top_pieces := 10, bottom_pieces := 2 },
   { x := 5, score_counted := false, top_pieces := 10, bottom_pieces := 2 },
   { x := 300, score_counted := true, top_pieces := 9, bottom_pieces := 3 }]

/-- Evaluation of the geometry constant: `total_pipe_body_pieces = 10` for
the configured `WIN_HEIGHT = 512`, `Bird.HEIGHT = 32`, `PIECE_HEIGHT = 32`. -/
lemma total_pipe_body_pieces_eq : total_pipe_body_pieces = 10 := by
  unfold total_pipe_body_pieces int_trunc
  norm_num [WIN_HEIGHT, TILE, Bird.HEIGHT, PipePair.PIECE_HEIGHT]

/-- One frame lasts `frames_to_msec 1 FPS = 1000 / 60 = 50 / 3` milliseconds. -/
lemma frames_to_msec_one : frames_to_msec 1 FPS = 50 / 3 := by
  norm_num [frames_to_msec, FPS]

/-- The constant `add_interval_frames` used in the embedding of
`Game.update_world` equals `msec_to_frames(PipePair.ADD_INTERVAL, FPS)`. -/
lemma add_interval_frames_eq :
    msec_to_frames PipePair.ADD_INTERVAL FPS = (add_interval_frames : ℚ) := by
  norm_num [msec_to_frames, PipePair.ADD_INTERVAL, FPS, add_interval_frames]

/-- Unfolding of `PipePair.visible` into its two strict inequalities. -/
lemma PipePair.visible_iff (p : PipePair) :
    p.visible = true ↔ (-(PipePair.WIDTH : ℚ) < p.x ∧ p.x < (WIN_WIDTH : ℚ)) := by
  simp [PipePair.visible]

/-- The scoring loop never changes the number of pipes. -/
lemma score_pass_snd_length (bird_x : ℚ) (l : List PipePair) :
    (score_pass bird_x l).2.length = l.length := by
  induction l with
  | nil => rfl
  | cons p rest ih =>
    simp only [score_pass]
    split_ifs <;> simp [ih]

/-- The scoring loop increments the score at most once per pipe in the list. -/
lemma score_pass_fst_le (bird_x : ℚ) (l : List PipePair) :
    (score_pass bird_x l).1 ≤ l.length := by
  induction l with
  | nil => simp [score_pass]
  | cons p rest ih =>
    simp only [score_pass]
    split_ifs <;> simp <;> omega

/-- Event handling never touches the score: none of the three event branches
of `Game.handle_events` writes to `self.score`. -/
lemma handle_events_score (g : Game) (evts : List GEvent) :
    (Game.handle_events g evts).score = g.score := by
  induction evts generalizing g with
  | nil => rfl
  | cons e es ih => cases e <;> simp [Game.handle_events, ih]

/-- C1: the claim states that the gap between the bottom edge of the top
pipe and the top edge of the bottom pipe is `3 * Bird.HEIGHT = 96` pixels.
It is not: for the pipe constructed from the draw `bottom_draw = 1` the gap
is `512 - 2*32 - 10*32 = 128` pixels, because the two `+ 1` end-piece
increments at the end of `PipePair.__init__` enter `top_height_px` and
`bottom_height_px` but only `3 * PIECE_HEIGHT` was reserved for them in
`total_pipe_body_pieces`. -/
theorem c1_gap_counterexample :
    ¬ (WIN_HEIGHT - (PipePair.init 1).bottom_height_px - (PipePair.init 1).top_height_px
        = 3 * Bird.HEIGHT) := by
  norm_num [PipePair.init, PipePair.bottom_height_px, PipePair.top_height_px,
    total_pipe_body_pieces_eq, PipePair.PIECE_HEIGHT, WIN_HEIGHT, Bird.HEIGHT]

/-- C1 (amended): for every `PipePair`, whatever the random draw, the
vertical gap between the bottom edge of the top pipe (`top_height_px`) and
the top edge of the bottom pipe (`WIN_HEIGHT - bottom_height_px`) is exactly
`4 * Bird.HEIGHT = 128` pixels (`3 * avatarHeight` of breathing room plus one
extra `PIECE_HEIGHT`), the same for every draw. -/
theorem c1_gap_amended :
    (∀ bottom_draw : ℤ,
      WIN_HEIGHT - (PipePair.init bottom_draw).bottom_height_px
        - (PipePair.init bottom_draw).top_height_px = 4 * Bird.HEIGHT) ∧
    4 * Bird.HEIGHT = 128 := by
  constructor
  · intro bottom_draw
    simp only [PipePair.init, PipePair.bottom_height_px, PipePair.top_height_px,
      total_pipe_body_pieces_eq, PipePair.PIECE_HEIGHT, WIN_HEIGHT, Bird.HEIGHT]
    ring
  · norm_num [Bird.HEIGHT]

/-- C2: the claim states that a non-paused tick whose collision condition
holds transitions to ended and performs no further mutation.  In `hit_state`
the condition `0 >= bird.y` holds and `update_world` does set `done`, but it
keeps mutating, and every one of the claimed unchanged quantities changes:
the bird sinks from `y = 0` to `y = 3`, the pipe moves from `x = -50` to
`x = -53`, and the score rises from 0 to 1. -/
theorem c2_no_stop_counterexample :
    ((0 : ℚ) ≥ hit_state.bird.y) ∧ hit_state.paused = false ∧
    (Game.update_world (fun _ => 0) (fun _ _ => false) 1 hit_state).done = true ∧
    (Game.update_world (fun _ => 0) (fun _ _ => false) 1 hit_state).bird.y = 3 ∧
    hit_state.bird.y = 0 ∧
    (Game.update_world (fun _ => 0) (fun _ _ => false) 1 hit_state).pipes.map PipePair.x
      = [-53] ∧
    hit_state.pipes.map PipePair.x = [-50] ∧
    (Game.update_world (fun _ => 0) (fun _ _ => false) 1 hit_state).score = 1 ∧
    hit_state.score = 0 := by
  refine ⟨by decide, rfl, ?_, ?_, rfl, ?_, rfl, ?_, rfl⟩ <;>
    norm_num [hit_state, Game.update_world, add_interval_frames, Bird.update,
      frames_to_msec, FPS, Bird.SINK_SPEED, cull_invisible, PipePair.visible,
      PipePair.WIDTH, WIN_WIDTH, TILE, PipePair.update, ANIMATION_SPEED, score_pass,
      WIN_HEIGHT, Bird.HEIGHT]

/-- C2 (amended): during a non-paused tick in which the collision condition
holds (some pipe collides with the bird, or `bird.y <= 0`, or
`bird.y >= WIN_HEIGHT - Bird.HEIGHT`), `update_world` transitions to ended,
but it does not stop: the rest of the tick still runs exactly as in a
collision-free tick — the bird is still updated, the pipe list still goes
through the cull, move and scoring passes, and the score still increases by
the scoring pass's count (positive in the counterexample above). -/
theorem c2_ended_transition_amended (cosPi : ℚ → ℚ)
    (collides : PipePair → Bird → Bool) (bottom_draw : ℤ) (g : Game)
    (hp : g.paused = false)
    (hcol : (0 : ℚ) ≥ g.bird.y ∨ g.bird.y ≥ (WIN_HEIGHT : ℚ) - (Bird.HEIGHT : ℚ) ∨
      ∃ p ∈ g.pipes, collides p g.bird = true) :
    (Game.update_world cosPi collides bottom_draw g).done = true ∧
    (Game.update_world cosPi collides bottom_draw g).bird = g.bird.update cosPi 1 ∧
    (Game.update_world cosPi collides bottom_draw g).pipes
      = (score_pass (g.bird.update cosPi 1).x
          ((cull_invisible (if g.frame_clock % add_interval_frames = 0
              then g.pipes ++ [PipePair.init bottom_draw] else g.pipes)).map
            (fun p => p.update 1))).2 ∧
    (Game.update_world cosPi collides bottom_draw g).score
      = g.score + (score_pass (g.bird.update cosPi 1).x
          ((cull_invisible (if g.frame_clock % add_interval_frames = 0
              then g.pipes ++ [PipePair.init bottom_draw] else g.pipes)).map
            (fun p => p.update 1))).1 := by
  rcases hcol with h | h | ⟨p, hpmem, hpc⟩ <;>
    simp only [Game.update_world, hp] <;>
    split_ifs <;>
    simp_all

/-- Witness for C2 (amended) at the concrete state `hit_state`. -/
theorem c2_ended_transition_amended_witness :
    (hit_state.paused = false ∧
     ((0 : ℚ) ≥ hit_state.bird.y ∨
      hit_state.bird.y ≥ (WIN_HEIGHT : ℚ) - (Bird.HEIGHT : ℚ) ∨
      ∃ p ∈ hit_state.pipes, (fun _ _ => false : PipePair → Bird → Bool) p hit_state.bird
        = true)) ∧
    ((Game.update_world (fun _ => 0) (fun _ _ => false) 1 hit_state).done = true ∧
     (Game.update_world (fun _ => 0) (fun _ _ => false) 1 hit_state).bird
        = hit_state.bird.update (fun _ => 0) 1 ∧
     (Game.update_world (fun _ => 0) (fun _ _ => false) 1 hit_state).pipes
        = (score_pass (hit_state.bird.update (fun _ => 0) 1).x
            ((cull_invisible (if hit_state.frame_clock % add_interval_frames = 0
                then hit_state.pipes ++ [PipePair.init 1] else hit_state.pipes)).map
              (fun p => p.update 1))).2 ∧
     (Game.update_world (fun _ => 0) (fun _ _ => false) 1 hit_state).score
        = hit_state.score + (score_pass (hit_state.bird.update (fun _ => 0) 1).x
            ((cull_invisible (if hit_state.frame_clock % add_interval_frames = 0
                then hit_state.pipes ++ [PipePair.init 1] else hit_state.pipes)).map
              (fun p => p.update 1))).1) :=
  ⟨⟨rfl, Or.inl (by decide)⟩,
    c2_ended_transition_amended (fun _ => 0) (fun _ _ => false) 1 hit_state rfl
      (Or.inl (by decide))⟩

/-- C3: the claim (and the comment at flappybird.py lines 297-299, "this
counter is only incremented if the game isn't paused") says `frame_clock` is
unchanged by a paused tick.  The code contradicts its own comment:
`render_world` ends with an unconditional `self.frame_clock += 1`, so a full
paused tick (`handle_events` on no events, `update_world`, `render_world`)
still advances `frame_clock` by 1. -/
theorem c3_frame_clock_paused_bug :
    ({ Game.initState with paused := true } : Game).paused = true ∧
    (Game.tick (fun _ => 0) (fun _ _ => false) 1 []
        { Game.initState with paused := true }).frame_clock
      = ({ Game.initState with paused := true } : Game).frame_clock + 1 := by
  norm_num [Game.tick, Game.render_world, Game.update_world, Game.handle_events,
    Game.initState]

/-- C4: the claim asserts that a `PipePair` at `x = -80` (with field width
568 and obstacle width 80) has `visible` true.  It does not: `visible`
requires `-WIDTH < x` strictly, and `-80 < -80` is false. -/
theorem c4_visible_boundary_counterexample :
    ({ x := -80, score_counted := false, top_pieces := 10, bottom_pieces := 2 } :
      PipePair).visible = false := by
  decide

/-- C4 (amended): `visible` is true exactly when `-WIDTH < x < WIN_WIDTH`;
at the boundary the inequality is strict on both sides, so with obstacle
width 80 a pipe at `x = -81` is not visible, one at `x = -80` is not visible
either (`x = -width` itself is excluded), and one at `x = -79` is visible. -/
theorem c4_visible_amended :
    (∀ p : PipePair,
      p.visible = true ↔ (-(PipePair.WIDTH : ℚ) < p.x ∧ p.x < (WIN_WIDTH : ℚ))) ∧
    ({ x := -81, score_counted := false, top_pieces := 10, bottom_pieces := 2 } :
      PipePair).visible = false ∧
    ({ x := -80, score_counted := false, top_pieces := 10, bottom_pieces := 2 } :
      PipePair).visible = false ∧
    ({ x := -79, score_counted := false, top_pieces := 10, bottom_pieces := 2 } :
      PipePair).visible = true :=
  ⟨PipePair.visible_iff, by decide, by decide, by decide⟩

/-- C5: the claim states `top_pieces + bottom_pieces = total_segments`
where `total_segments = total_pipe_body_pieces = 10`.  After construction
this fails: the draw `bottom_draw = 1` yields `top_pieces = 10` and
`bottom_pieces = 2`, summing to 12, because both counts are incremented by 1
for the end pieces after the split of the 10 body pieces. -/
theorem c5_pieces_sum_counterexample :
    ¬ ((PipePair.init 1).top_pieces + (PipePair.init 1).bottom_pieces
        = total_pipe_body_pieces) := by
  norm_num [PipePair.init, total_pipe_body_pieces_eq]

/-- C5 (amended): after construction
`top_pieces + bottom_pieces = total_pipe_body_pieces + 2 = 12`, the same
constant for every `PipePair` regardless of the random draw, where
`total_pipe_body_pieces = floor((512 - 3*32 - 3*32) / 32) = 10`. -/
theorem c5_pieces_sum_amended :
    (∀ bottom_draw : ℤ,
      (PipePair.init bottom_draw).top_pieces + (PipePair.init bottom_draw).bottom_pieces
        = total_pipe_body_pieces + 2) ∧
    total_pipe_body_pieces = 10 := by
  constructor
  · intro bottom_draw
    simp only [PipePair.init]
    ring
  · exact total_pipe_body_pieces_eq

/-- C6: the claim states `0 <= msec_to_climb` for every reachable bird
state.  It fails immediately: the bird is constructed with
`msec_to_climb = 2`, and the first `update` (one frame, `50/3` ms) drives the
timer to `2 - 50/3 = -44/3 < 0`, because `Bird.update` subtracts without
clamping at 0. -/
theorem c6_climb_timer_counterexample :
    (Bird.update (fun _ => 0) Game.initState.bird 1).msec_to_climb < 0 := by
  norm_num [Game.initState, Bird.update, frames_to_msec, FPS]

/-- C6 (amended): for birds updated one frame at a time, the climb timer
stays in the half-open band
`-frames_to_msec 1 FPS < msec_to_climb <= CLIMB_DURATION` (so it can dip
below 0, but never by a full frame's worth of milliseconds), it never
increases under `update`, the initial value 2 lies in the band, and the
climb input's reset value `CLIMB_DURATION` lies in the band as well. -/
theorem c6_climb_timer_amended (cosPi : ℚ → ℚ) (b : Bird)
    (h1 : -frames_to_msec 1 FPS < b.msec_to_climb)
    (h2 : b.msec_to_climb ≤ Bird.CLIMB_DURATION) :
    (-frames_to_msec 1 FPS < (b.update cosPi 1).msec_to_climb ∧
     (b.update cosPi 1).msec_to_climb ≤ Bird.CLIMB_DURATION ∧
     (b.update cosPi 1).msec_to_climb ≤ b.msec_to_climb) ∧
    (-frames_to_msec 1 FPS < Game.initState.bird.msec_to_climb ∧
     Game.initState.bird.msec_to_climb ≤ Bird.CLIMB_DURATION) ∧
    -frames_to_msec 1 FPS < Bird.CLIMB_DURATION := by
  have hcase : ((Bird.update cosPi b 1).msec_to_climb = b.msec_to_climb - 50 / 3
        ∧ 0 < b.msec_to_climb) ∨
      ((Bird.update cosPi b 1).msec_to_climb = b.msec_to_climb ∧ b.msec_to_climb ≤ 0) := by
    unfold Bird.update
    split_ifs with hpos
    · exact Or.inl ⟨by simp [frames_to_msec_one], hpos⟩
    · exact Or.inr ⟨by simp, by linarith⟩
  rw [frames_to_msec_one] at h1 ⊢
  rw [Bird.CLIMB_DURATION] at h2
  simp only [Bird.CLIMB_DURATION, Game.initState]
  rcases hcase with ⟨h, hpos⟩ | ⟨h, hle⟩ <;>
    rw [h] <;>
    refine ⟨⟨by linarith, by linarith, by linarith⟩, ⟨by norm_num, by norm_num⟩, by norm_num⟩

/-- Witness for C6 (amended) at the initial bird of `Game.initState`. -/
theorem c6_climb_timer_amended_witness :
    (-frames_to_msec 1 FPS < Game.initState.bird.msec_to_climb ∧
     Game.initState.bird.msec_to_climb ≤ Bird.CLIMB_DURATION) ∧
    ((-frames_to_msec 1 FPS
        < (Game.initState.bird.update (fun _ => 0) 1).msec_to_climb ∧
      (Game.initState.bird.update (fun _ => 0) 1).msec_to_climb ≤ Bird.CLIMB_DURATION ∧
      (Game.initState.bird.update (fun _ => 0) 1).msec_to_climb
        ≤ Game.initState.bird.msec_to_climb) ∧
     (-frames_to_msec 1 FPS < Game.initState.bird.msec_to_climb ∧
      Game.initState.bird.msec_to_climb ≤ Bird.CLIMB_DURATION) ∧
     -frames_to_msec 1 FPS < Bird.CLIMB_DURATION) :=
  ⟨⟨by norm_num [frames_to_msec_one, Game.initState],
    by norm_num [Game.initState, Bird.CLIMB_DURATION]⟩,
   c6_climb_timer_amended (fun _ => 0) Game.initState.bird
     (by norm_num [frames_to_msec_one, Game.initState])
     (by norm_num [Game.initState, Bird.CLIMB_DURATION])⟩

/-- C7: the culling pass of `update_world` only ever removes pipes whose
`visible` is false (the list splits as removed prefix ++ result, with every
removed pipe invisible), and under the documented ordering invariant — the
deque is ordered head-first by ascending `x` and every pipe lies left of the
field width — every pipe that survives the pass is visible. -/
theorem c7_cull_correct (l : List PipePair)
    (hsorted : l.Pairwise fun a b => a.x ≤ b.x)
    (hlt : ∀ p ∈ l, p.x < (WIN_WIDTH : ℚ)) :
    (∃ dropped, l = dropped ++ cull_invisible l ∧ ∀ p ∈ dropped, p.visible = false) ∧
    (∀ p ∈ cull_invisible l, p.visible = true) := by
  induction l with
  | nil => exact ⟨⟨[], rfl, by simp⟩, by simp [cull_invisible]⟩
  | cons p rest ih =>
    by_cases hv : p.visible = true
    · refine ⟨⟨[], by simp [cull_invisible, hv], by simp⟩, ?_⟩
      intro q hq
      rw [cull_invisible, if_pos hv] at hq
      rcases List.mem_cons.mp hq with h | h
      · subst h; exact hv
      · have hle : p.x ≤ q.x := (List.pairwise_cons.mp hsorted).1 q h
        have h1 : -(PipePair.WIDTH : ℚ) < p.x := ((PipePair.visible_iff p).mp hv).1
        exact (PipePair.visible_iff q).mpr
          ⟨lt_of_lt_of_le h1 hle, hlt q (List.mem_cons_of_mem _ h)⟩
    · have hv' : p.visible = false := by simpa using hv
      obtain ⟨⟨dropped, hd, hdf⟩, hall⟩ :=
        ih (List.pairwise_cons.mp hsorted).2 fun q hq => hlt q (List.mem_cons_of_mem _ hq)
      have hc : cull_invisible (p :: rest) = cull_invisible rest := by
        rw [cull_invisible, if_neg hv]
      refine ⟨⟨p :: dropped, ?_, ?_⟩, ?_⟩
      · rw [hc, List.cons_append]
        exact congrArg (p :: ·) hd
      · intro q hq
        rcases List.mem_cons.mp hq with h | h
        · subst h; exact hv'
        · exact hdf q h
      · intro q hq
        rw [hc] at hq
        exact hall q hq

/-- Witness for C7 at the concrete ordered list `sample_pipe_list`. -/
theorem c7_cull_correct_witness :
    (sample_pipe_list.Pairwise (fun a b => a.x ≤ b.x) ∧
     ∀ p ∈ sample_pipe_list, p.x < (WIN_WIDTH : ℚ)) ∧
    ((∃ dropped, sample_pipe_list = dropped ++ cull_invisible sample_pipe_list ∧
        ∀ p ∈ dropped, p.visible = false) ∧
     (∀ p ∈ cull_invisible sample_pipe_list, p.visible = true)) :=
  ⟨⟨by decide, by decide⟩, c7_cull_correct sample_pipe_list (by decide) (by decide)⟩

/-- C8: the scoring pass is idempotent per pipe.  Running the scoring loop a
second time on the pipe list produced by a first run (with nothing moving in
between) adds 0 to the score and leaves the list unchanged: once a pipe's
`score_counted` flag is set, no later pass counts it again. -/
theorem c8_score_pass_idempotent (bird_x : ℚ) (l : List PipePair) :
    score_pass bird_x (score_pass bird_x l).2 = (0, (score_pass bird_x l).2) := by
  induction l with
  | nil => rfl
  | cons p rest ih =>
    by_cases hc : (decide (p.x + (PipePair.WIDTH : ℚ) < bird_x) && !p.score_counted) = true
    · simp only [score_pass, if_pos hc]
      have hmark : (decide (({ p with score_counted := true } : PipePair).x
          + (PipePair.WIDTH : ℚ) < bird_x)
          && !({ p with score_counted := true } : PipePair).score_counted) = false := by
        simp
      simp only [score_pass, hmark, Bool.false_eq_true, if_neg, ih]
      simp
    · simp only [score_pass, if_neg hc]
      simp only [score_pass, hc, Bool.false_eq_true, if_neg, ih]

/-- C9: `update_world` never reads the `done` flag — it only writes it.
Two states identical except for `done` produce identical bird state,
identical pipe lists and identical scores; and in particular, in the
concrete state `done_probe_state` (with `done = true` and `paused = false`),
`update_world` still sinks the bird from `y = 100` to `y = 103`, still moves
the pipe from `x = -50` to `x = -53`, and still raises the score from 0
to 1. -/
theorem c9_update_world_done_insensitive :
    (∀ (cosPi : ℚ → ℚ) (collides : PipePair → Bird → Bool) (bottom_draw : ℤ)
        (g : Game) (d1 d2 : Bool),
      (Game.update_world cosPi collides bottom_draw { g with done := d1 }).bird
        = (Game.update_world cosPi collides bottom_draw { g with done := d2 }).bird ∧
      (Game.update_world cosPi collides bottom_draw { g with done := d1 }).pipes
        = (Game.update_world cosPi collides bottom_draw { g with done := d2 }).pipes ∧
      (Game.update_world cosPi collides bottom_draw { g with done := d1 }).score
        = (Game.update_world cosPi collides bottom_draw { g with done := d2 }).score) ∧
    ((Game.update_world (fun _ => 0) (fun _ _ => false) 1 done_probe_state).bird.y = 103 ∧
     (Game.update_world (fun _ => 0) (fun _ _ => false) 1 done_probe_state).pipes.map
        PipePair.x = [-53] ∧
     (Game.update_world (fun _ => 0) (fun _ _ => false) 1 done_probe_state).score = 1) := by
  constructor
  · intro cosPi collides bottom_draw g d1 d2
    simp only [Game.update_world]
    split_ifs <;> simp_all
  · norm_num [done_probe_state, Game.update_world, add_interval_frames, Bird.update,
      frames_to_msec, FPS, Bird.SINK_SPEED, cull_invisible, PipePair.visible,
      PipePair.WIDTH, WIN_WIDTH, TILE, PipePair.update, ANIMATION_SPEED, score_pass,
      WIN_HEIGHT, Bird.HEIGHT]

/-- C10: the score starts at 0, `handle_events` never changes it, and one
`update_world` call never decreases it and increases it by at most the
number of pipes in the field (the scoring loop visits each pipe of the
updated field once and adds at most 1 per pipe). -/
theorem c10_score_monotone :
    Game.initState.score = 0 ∧
    (∀ (g : Game) (evts : List GEvent), (Game.handle_events g evts).score = g.score) ∧
    (∀ (cosPi : ℚ → ℚ) (collides : PipePair → Bird → Bool) (bottom_draw : ℤ) (g : Game),
      g.score ≤ (Game.update_world cosPi collides bottom_draw g).score ∧
      (Game.update_world cosPi collides bottom_draw g).score
        ≤ g.score + (Game.update_world cosPi collides bottom_draw g).pipes.length) := by
  refine ⟨rfl, handle_events_score, ?_⟩
  intro cosPi collides bottom_draw g
  simp only [Game.update_world]
  split_ifs <;>
    simp_all <;>
    calc _ ≤ _ := score_pass_fst_le _ _
    _ = _ := by rw [score_pass_snd_length]
